import Mathlib

/-!
Shallow embedding of `src/karel_game.py` ("Karel's Code Quest", a single-file
side-scrolling platformer).

Modelling conventions:
* Python floats are modelled as rationals (`ℚ`); every arithmetic operation of
  the source is mirrored exactly (e.g. `GRAVITY = 0.8` becomes `4/5`).
* `pygame.Rect` stores integer coordinates; constructing a rect from floats
  truncates toward zero, modelled by `pyInt`.
* `pygame.Rect.colliderect` is a strict overlap test on both axes (touching
  edges do not collide); all rects in play have positive extents.
* The source compares a Euclidean distance against a threshold once (beeper
  collection); since both sides are nonnegative the comparison of squares used
  here is equivalent and keeps the model inside `ℚ`.
* Rendering, fonts, sounds and the pygame event loop are outside the model.
  The two sources of runtime nondeterminism that feed the simulation
  (`pygame.time.get_ticks()` for particle velocities, `random.randint` for the
  screen-shake offset) are passed in as per-frame inputs.
-/

namespace KarelSpec

/-- Truncation toward zero, as C / Python `int(float)` and `pygame.Rect` do. -/
def pyInt (q : ℚ) : ℤ := Int.tdiv q.num q.den

/-- `pygame.Rect.colliderect` for rectangles with positive extents:
strict overlap on both axes. -/
def intRectsCollide (x1 y1 w1 h1 x2 y2 w2 h2 : ℤ) : Bool :=
  decide (x1 < x2 + w2) && decide (x1 + w1 > x2) &&
  decide (y1 < y2 + h2) && decide (y1 + h1 > y2)

-- Constants of the source file (same names).
def WINDOW_WIDTH : ℚ := 640
def WINDOW_HEIGHT : ℚ := 480
def WORLD_WIDTH : ℚ := 3200
def KAREL_SIZE : ℚ := 32
def KAREL_SPEED : ℚ := 5
def KAREL_START_X : ℚ := 50
def KAREL_START_Y : ℚ := WINDOW_HEIGHT - 100
def GRAVITY : ℚ := 4/5
def JUMP_VELOCITY : ℚ := -15
def TERMINAL_VELOCITY : ℚ := 12
def GROUND_HEIGHT : ℚ := 50
def GROUND_LEVEL : ℚ := WINDOW_HEIGHT - GROUND_HEIGHT
def BEEPER_RADIUS : ℚ := 8
def BEEPER_COLLECTION_DISTANCE : ℚ := 20
def BEEPER_POINTS : ℕ := 10
def WALL_SIZE : ℚ := 32
def GOAL_FLAG_WIDTH : ℚ := 20
def GOAL_FLAG_HEIGHT : ℚ := 40
def GOAL_FLAG_X : ℚ := 3100
def PARTICLE_COUNT : ℕ := 5
def PARTICLE_LIFETIME : ℤ := 30
def PARTICLE_SPEED : ℚ := 3
def SHAKE_DURATION : ℕ := 20
def WIN_SCREEN_DURATION : ℕ := 180

/-- `Platform.__init__`: an axis-aligned rectangle Karel can land on.  Walls
are duck-typed into the same shape by `check_platform_collision`. -/
structure Platform where
  x : ℚ
  y : ℚ
  width : ℚ
  height : ℚ
deriving DecidableEq, Repr

/-- `Wall.__init__`: a fixed 32×32 solid block (its collision rect is built
once from its coordinates and never mutated). -/
structure Wall where
  x : ℚ
  y : ℚ
deriving DecidableEq, Repr

/-- A wall seen as an obstacle of `check_platform_collision`
(`all_obstacles = list(platforms) + list(walls)`). -/
def Wall.toPlatform (w : Wall) : Platform := ⟨w.x, w.y, WALL_SIZE, WALL_SIZE⟩

/-- `Beeper.__init__` state. -/
structure Beeper where
  x : ℚ
  y : ℚ
  radius : ℚ
  collected : Bool
  points : ℕ
deriving DecidableEq, Repr

/-- `Beeper.__init__`. -/
def Beeper.make (x y : ℚ) : Beeper :=
  { x := x, y := y, radius := BEEPER_RADIUS, collected := false, points := BEEPER_POINTS }

/-- `Karel.__init__` state.  `rect_x`/`rect_y` are the coordinates of the
pygame collision rect; the source updates `rect.x` inside `move_left` and
`move_right` but the `rect.y` update at the end of `Karel.update` sits after a
`return` statement and is unreachable, so `rect_y` keeps its construction-time
value. -/
structure Karel where
  x : ℚ
  y : ℚ
  velocity_y : ℚ
  on_ground : Bool
  rect_x : ℤ
  rect_y : ℤ
deriving DecidableEq, Repr

/-- `Karel.__init__`. -/
def Karel.make (x y : ℚ) : Karel :=
  { x := x, y := y, velocity_y := 0, on_ground := false, rect_x := pyInt x, rect_y := pyInt y }

/-- The wall test of `move_left`/`move_right`: Karel's collision rect at the
tentative x (and the rect's stored y) against `wall.rect`. -/
def Karel.hitsWall (rx ry : ℤ) (w : Wall) : Bool :=
  intRectsCollide rx ry 32 32 (pyInt w.x) (pyInt w.y) 32 32

/-- `Karel.move_left`: tentative x, boundary clamp (which returns before any
wall test), then revert on the first colliding wall. -/
def Karel.move_left (k : Karel) (walls : List Wall) : Karel :=
  let nx := k.x - KAREL_SPEED
  if nx < 0 then { k with x := 0, rect_x := 0 }
  else if walls.any (Karel.hitsWall (pyInt nx) k.rect_y) then
    { k with rect_x := pyInt k.x }
  else { k with x := nx, rect_x := pyInt nx }

/-- `Karel.move_right`. -/
def Karel.move_right (k : Karel) (walls : List Wall) : Karel :=
  let nx := k.x + KAREL_SPEED
  if nx > WORLD_WIDTH - KAREL_SIZE then
    { k with x := WORLD_WIDTH - KAREL_SIZE, rect_x := pyInt (WORLD_WIDTH - KAREL_SIZE) }
  else if walls.any (Karel.hitsWall (pyInt nx) k.rect_y) then
    { k with rect_x := pyInt k.x }
  else { k with x := nx, rect_x := pyInt nx }

/-- `Karel.jump`. -/
def Karel.jump (k : Karel) : Karel :=
  if k.on_ground then { k with velocity_y := JUMP_VELOCITY, on_ground := false } else k

/-- `Karel.apply_gravity`. -/
def Karel.apply_gravity (k : Karel) : Karel :=
  if k.on_ground then k
  else
    let v := k.velocity_y + GRAVITY
    { k with velocity_y := if v > TERMINAL_VELOCITY then TERMINAL_VELOCITY else v }

/-- The obstacle loop of `Karel.check_platform_collision`: `x`, `kb`
(`karel_bottom`), `kt` (`karel_top`) and `vy` are fixed at loop entry; the
first obstacle whose branch fires determines the response `(new y, lands)`. -/
def collideScan (x kb kt vy : ℚ) : List Platform → Option (ℚ × Bool)
  | [] => none
  | o :: rest =>
    if x + KAREL_SIZE > o.x ∧ x < o.x + o.width then
      if 0 ≤ vy ∧ o.y ≤ kb ∧ kb ≤ o.y + o.height + vy then
        some (o.y - KAREL_SIZE, true)
      else if vy < 0 ∧ kt ≤ o.y + o.height ∧ o.y + vy ≤ kt then
        some (o.y + o.height, false)
      else collideScan x kb kt vy rest
    else collideScan x kb kt vy rest

/-- `Karel.check_platform_collision`. -/
def Karel.check_platform_collision (k : Karel) (platforms : List Platform)
    (walls : List Wall) : Karel :=
  match collideScan k.x (k.y + KAREL_SIZE) k.y k.velocity_y
      (platforms ++ walls.map Wall.toPlatform) with
  | none => { k with on_ground := false }
  | some (ny, g) => { k with y := ny, velocity_y := 0, on_ground := g }

/-- One per-frame input snapshot: the three key flags read by `Karel.update`,
plus the two environment values the frame consumes (`pygame.time.get_ticks()`
and the `random.randint` shake offsets). -/
structure FrameInput where
  left : Bool
  right : Bool
  jump : Bool
  ticks_ms : ℕ
  rand_x : ℤ
  rand_y : ℤ
deriving DecidableEq, Repr

def noInput : FrameInput := ⟨false, false, false, 0, 0, 0⟩

/-- The horizontal-movement prefix of `Karel.update`: left key, then right key
(both `if`s, not `elif`). -/
def Karel.moveStage (k : Karel) (inp : FrameInput) (walls : List Wall) : Karel :=
  if inp.right then (if inp.left then k.move_left walls else k).move_right walls
  else if inp.left then k.move_left walls else k

/-- The input-handling prefix of `Karel.update`: left, then right, then jump. -/
def Karel.handleInput (k : Karel) (inp : FrameInput) (walls : List Wall) : Karel :=
  if inp.jump then (k.moveStage inp walls).jump else k.moveStage inp walls

/-- `Karel.update` up to and including the collision resolution (everything
before the fall-through check). -/
def Karel.physicsStep (k : Karel) (inp : FrameInput) (platforms : List Platform)
    (walls : List Wall) : Karel :=
  let k3 := (k.handleInput inp walls).apply_gravity
  Karel.check_platform_collision { k3 with y := k3.y + k3.velocity_y } platforms walls

/-- `Karel.update`: physics, then the gap fall-through check.  The returned
flag is the "fell" signal handed to the caller (screen shake). -/
def Karel.update (k : Karel) (inp : FrameInput) (platforms : List Platform)
    (walls : List Wall) : Karel × Bool :=
  if (k.physicsStep inp platforms walls).y > WINDOW_HEIGHT + 100 then
    ({ k.physicsStep inp platforms walls with
        x := KAREL_START_X, y := KAREL_START_Y, velocity_y := 0, on_ground := false },
      true)
  else (k.physicsStep inp platforms walls, false)

/-- `Camera.__init__` state (`follow_speed` is the constant `0.1`). -/
structure Camera where
  x : ℚ
  y : ℚ
  target_x : ℚ
deriving DecidableEq, Repr

def Camera.make : Camera := ⟨0, 0, 0⟩

def FOLLOW_SPEED : ℚ := 1/10

/-- `Camera.update`: forward-only target, exponential smoothing, world clamp. -/
def Camera.update (c : Camera) (karelX : ℚ) : Camera :=
  let ideal := karelX - WINDOW_WIDTH / 2
  let t := if ideal > c.target_x then ideal else c.target_x
  let nx := c.x + (t - c.x) * FOLLOW_SPEED
  { x := max 0 (min nx (WORLD_WIDTH - WINDOW_WIDTH)), y := 0, target_x := t }

/-- `Beeper.check_collection`: skip when already collected, otherwise compare
the distance from Karel's center to the beeper center against the collection
threshold (squared form of the source's square-root comparison). -/
def Beeper.check_collection (b : Beeper) (k : Karel) : Beeper × Bool :=
  if b.collected then (b, false)
  else if (k.x + KAREL_SIZE / 2 - b.x) ^ 2 + (k.y + KAREL_SIZE / 2 - b.y) ^ 2
      < BEEPER_COLLECTION_DISTANCE ^ 2 then
    ({ b with collected := true }, true)
  else (b, false)

/-- The beeper loop of `KarelGame.update`: returns the updated beepers, the
score gained this frame, and the pickup positions (each spawns particles). -/
def beeperSweep (k : Karel) : List Beeper → List Beeper × ℕ × List (ℚ × ℚ)
  | [] => ([], 0, [])
  | b :: rest =>
    let r := b.check_collection k
    let s := beeperSweep k rest
    (r.1 :: s.1, (if r.2 then b.points else 0) + s.2.1,
      (if r.2 then [(b.x, b.y)] else []) ++ s.2.2)

def GOAL_BASE_Y : ℚ := GROUND_LEVEL - GOAL_FLAG_HEIGHT - 10

/-- The rect-intersection test of `GoalFlag.check_victory` (karel rect against
the flag rect; `pygame.Rect` truncates the float coordinates). -/
def goalOverlap (k : Karel) : Bool :=
  intRectsCollide (pyInt k.x) (pyInt k.y) 32 32
    (pyInt GOAL_FLAG_X) (pyInt GOAL_BASE_Y) 20 40

/-- `GoalFlag.check_victory`: first component is the new `reached` flag, the
second the returned Bool. -/
def check_victory (reached : Bool) (k : Karel) : Bool × Bool :=
  if reached then (true, false)
  else if goalOverlap k then (true, true) else (false, false)

/-- `Particle.__init__` state. -/
structure Particle where
  x : ℚ
  y : ℚ
  vel_x : ℚ
  vel_y : ℚ
  lifetime : ℤ
  max_lifetime : ℤ
deriving DecidableEq, Repr

/-- `Particle.__init__` (`ticks` stands for `pygame.time.get_ticks()`). -/
def Particle.make (x y : ℚ) (ticks : ℕ) : Particle :=
  { x := x, y := y,
    vel_x := (((ticks % 7 : ℕ) : ℚ) - 3) * PARTICLE_SPEED / 3,
    vel_y := -((((ticks % 5 : ℕ) : ℚ) + 2) * PARTICLE_SPEED / 2),
    lifetime := PARTICLE_LIFETIME, max_lifetime := PARTICLE_LIFETIME }

/-- `Particle.update` (the alive test `lifetime > 0` is applied by the caller). -/
def Particle.step (p : Particle) : Particle :=
  { p with
    x := p.x + p.vel_x, y := p.y + p.vel_y, vel_y := p.vel_y + 1/5,
    lifetime := p.lifetime - 1 }

/-- The victory block of `KarelGame.update`: `(game_won, goal_reached,
win_timer)` after the check (the timer countdown is applied separately). -/
def victoryStage (won reached : Bool) (timer : ℕ) (k : Karel) : Bool × Bool × ℕ :=
  if won then (true, reached, timer)
  else
    let cv := check_victory reached k
    (cv.2, cv.1, if cv.2 then WIN_SCREEN_DURATION else timer)

/-- `KarelGame` session state (the fields touched by `update` and
`restart_game`; screen/clock/background are rendering-only). -/
structure GameState where
  karel : Karel
  camera : Camera
  score : ℕ
  game_won : Bool
  win_timer : ℕ
  beepers : List Beeper
  goal_reached : Bool
  particles : List Particle
  screen_shake : ℕ
  camera_shake_x : ℤ
  camera_shake_y : ℤ
  platforms : List Platform
  walls : List Wall
deriving DecidableEq

/-- The `self.karel.update(...)` call of `KarelGame.update`. -/
def karelAfter (g : GameState) (inp : FrameInput) : Karel × Bool :=
  g.karel.update inp g.platforms g.walls

/-- `KarelGame.update`: karel physics, screen shake, camera follow, beeper
collection with particle spawning, particle aging, victory check, win timer. -/
def GameState.update (g : GameState) (inp : FrameInput) : GameState :=
  let kf := karelAfter g inp
  let shake0 := if kf.2 then SHAKE_DURATION else g.screen_shake
  let cam := g.camera.update kf.1.x
  let sw := beeperSweep kf.1 g.beepers
  let spawned := sw.2.2.foldr
    (fun pos acc => List.replicate PARTICLE_COUNT (Particle.make pos.1 pos.2 inp.ticks_ms) ++ acc)
    []
  let parts := (g.particles ++ spawned).filterMap (fun p =>
    let q := p.step
    if q.lifetime > 0 then some q else none)
  let vs := victoryStage g.game_won g.goal_reached g.win_timer kf.1
  { karel := kf.1, camera := cam, score := g.score + sw.2.1, game_won := vs.1,
    win_timer := if vs.1 ∧ vs.2.2 > 0 then vs.2.2 - 1 else vs.2.2,
    beepers := sw.1, goal_reached := vs.2.1, particles := parts,
    screen_shake := if shake0 > 0 then shake0 - 1 else shake0,
    camera_shake_x := if shake0 > 0 then inp.rand_x else 0,
    camera_shake_y := if shake0 > 0 then inp.rand_y else 0,
    platforms := g.platforms, walls := g.walls }

/-- `KarelGame.restart_game`: rebuild Karel, camera, particles and flags;
obstacle geometry and beeper positions are untouched. -/
def GameState.restart_game (g : GameState) : GameState :=
  { g with
    score := 0, game_won := false, win_timer := 0, particles := [],
    screen_shake := 0, camera_shake_x := 0, camera_shake_y := 0,
    karel := Karel.make KAREL_START_X KAREL_START_Y,
    camera := Camera.make,
    beepers := g.beepers.map (fun b => { b with collected := false }),
    goal_reached := false }

-- The hand-authored level of `KarelGame._create_level_data`.

def levelPlatforms : List Platform :=
  [ ⟨0, GROUND_LEVEL, 400, GROUND_HEIGHT⟩,
    ⟨500, GROUND_LEVEL, 300, GROUND_HEIGHT⟩,
    ⟨900, GROUND_LEVEL, 300, GROUND_HEIGHT⟩,
    ⟨1350, GROUND_LEVEL, 250, GROUND_HEIGHT⟩,
    ⟨1750, GROUND_LEVEL, 200, GROUND_HEIGHT⟩,
    ⟨2100, GROUND_LEVEL, 300, GROUND_HEIGHT⟩,
    ⟨2600, GROUND_LEVEL, 600, GROUND_HEIGHT⟩,
    ⟨200, 400, 100, 20⟩, ⟨350, 320, 80, 20⟩, ⟨480, 240, 120, 20⟩, ⟨650, 160, 100, 20⟩,
    ⟨800, 350, 120, 20⟩, ⟨1000, 280, 80, 20⟩, ⟨1200, 200, 100, 20⟩, ⟨1400, 320, 150, 20⟩,
    ⟨1700, 240, 80, 20⟩, ⟨1850, 180, 60, 20⟩, ⟨2000, 240, 80, 20⟩, ⟨2200, 160, 120, 20⟩,
    ⟨2400, 300, 100, 20⟩,
    ⟨2600, 220, 100, 20⟩, ⟨2800, 160, 80, 20⟩, ⟨3000, 280, 150, 20⟩ ]

def levelWalls : List Wall := []

def levelBeepers : List Beeper :=
  [ Beeper.make 150 (GROUND_LEVEL - 20),
    Beeper.make 220 (400 - 25),
    Beeper.make 450 (GROUND_LEVEL - 100),
    Beeper.make 670 (160 - 25),
    Beeper.make 850 (GROUND_LEVEL - 100),
    Beeper.make 1050 (280 - 25),
    Beeper.make 1500 (220 - 25),
    Beeper.make 2000 (GROUND_LEVEL - 100),
    Beeper.make 2800 (280 - 25),
    Beeper.make 3050 (280 - 25) ]

/-- `KarelGame._check_beeper_obstacle_collision`: the 20×20 neighborhood rect
against every wall rect, plus inclusive center-in-platform containment. -/
def beeperConflict (platforms : List Platform) (walls : List Wall) (bx bY : ℚ) : Bool :=
  let ax := pyInt (bx - 10)
  let ay := pyInt (bY - 10)
  walls.any (fun w => intRectsCollide ax ay 20 20 (pyInt w.x) (pyInt w.y) 32 32) ||
  platforms.any (fun p =>
    decide (p.x ≤ bx) && decide (bx ≤ p.x + p.width) &&
    decide (p.y ≤ bY) && decide (bY ≤ p.y + p.height))

def H_OFFSETS : List ℚ := [-40, 40, -60, 60, -80, 80]
def V_OFFSETS : List ℚ := [-30, 30]

/-- The per-beeper body of `KarelGame._resolve_beeper_obstacle_conflicts`:
first horizontal offset that is on screen and conflict-free wins, else first
vertical offset, else the beeper stays put. -/
def resolveBeeper (platforms : List Platform) (walls : List Wall) (b : Beeper) : Beeper :=
  if beeperConflict platforms walls b.x b.y then
    match H_OFFSETS.find? (fun off =>
        decide (0 ≤ b.x + off) && decide (b.x + off ≤ WINDOW_WIDTH) &&
        !(beeperConflict platforms walls (b.x + off) b.y)) with
    | some off => { b with x := b.x + off }
    | none =>
      match V_OFFSETS.find? (fun off =>
          decide (b.y + off > 0) && decide (b.y + off < WINDOW_HEIGHT) &&
          !(beeperConflict platforms walls b.x (b.y + off))) with
      | some off => { b with y := b.y + off }
      | none => b
  else b

/-- `KarelGame.__init__`: spawn Karel, fresh camera, the static level, and the
beeper conflict-resolution pass. -/
def gameInit : GameState :=
  { karel := Karel.make KAREL_START_X KAREL_START_Y,
    camera := Camera.make,
    score := 0, game_won := false, win_timer := 0,
    beepers := levelBeepers.map (resolveBeeper levelPlatforms levelWalls),
    goal_reached := false, particles := [],
    screen_shake := 0, camera_shake_x := 0, camera_shake_y := 0,
    platforms := levelPlatforms, walls := levelWalls }

/-- The session trace driven by a stream of per-frame inputs. -/
def gameTrace (f : ℕ → FrameInput) : ℕ → GameState
  | 0 => gameInit
  | n + 1 => (gameTrace f n).update (f n)

/-- Whether, during tick `n`, the (already-updated) Karel rect intersects the
goal flag rect. -/
def overlapAt (f : ℕ → FrameInput) (n : ℕ) : Bool :=
  goalOverlap (karelAfter (gameTrace f n) (f n)).1

/-- Whether `GoalFlag.check_victory` is called during tick `n` and returns
`True` (the victory event of that tick). -/
def victoryFiredAt (f : ℕ → FrameInput) (n : ℕ) : Bool :=
  let g := gameTrace f n
  !g.game_won && (check_victory g.goal_reached (karelAfter g (f n)).1).2

/-- The score bookkeeping invariant: the session score is the beeper point
value times the number of collected beepers, and every beeper is worth 10. -/
def ScoreInv (g : GameState) : Prop :=
  g.score = 10 * g.beepers.countP (fun b => b.collected) ∧ ∀ b ∈ g.beepers, b.points = 10

/-- The camera invariant maintained across ticks: the eased position trails
the stored target and stays inside the world clamp. -/
def CamOK (c : Camera) : Prop :=
  c.x ≤ c.target_x ∧ 0 ≤ c.x ∧ c.x ≤ WORLD_WIDTH - WINDOW_WIDTH ∧ 0 ≤ c.target_x

/-! ### Lemmas about the Karel physics step -/

theorem Karel.move_left_y (k : Karel) (ws : List Wall) : (k.move_left ws).y = k.y := by
  simp only [Karel.move_left]; split_ifs <;> rfl

theorem Karel.move_left_velocity (k : Karel) (ws : List Wall) :
    (k.move_left ws).velocity_y = k.velocity_y := by
  simp only [Karel.move_left]; split_ifs <;> rfl

theorem Karel.move_left_ground (k : Karel) (ws : List Wall) :
    (k.move_left ws).on_ground = k.on_ground := by
  simp only [Karel.move_left]; split_ifs <;> rfl

theorem Karel.move_right_y (k : Karel) (ws : List Wall) : (k.move_right ws).y = k.y := by
  simp only [Karel.move_right]; split_ifs <;> rfl

theorem Karel.move_right_velocity (k : Karel) (ws : List Wall) :
    (k.move_right ws).velocity_y = k.velocity_y := by
  simp only [Karel.move_right]; split_ifs <;> rfl

theorem Karel.move_right_ground (k : Karel) (ws : List Wall) :
    (k.move_right ws).on_ground = k.on_ground := by
  simp only [Karel.move_right]; split_ifs <;> rfl

theorem Karel.jump_airborne (k : Karel) (h : k.on_ground = false) : k.jump = k := by
  simp [Karel.jump, h]

/-- `jump` always leaves the grounded flag cleared: a no-op when airborne, and
it clears the flag when it launches. -/
theorem Karel.jump_ground (k : Karel) : (k.jump).on_ground = false := by
  unfold Karel.jump; split_ifs with h <;> simp_all

/-- When no key is held the input-handling prefix does nothing. -/
theorem Karel.handleInput_noKeys (k : Karel) (inp : FrameInput) (ws : List Wall)
    (hl : inp.left = false) (hr : inp.right = false) (hj : inp.jump = false) :
    k.handleInput inp ws = k := by
  simp [Karel.handleInput, Karel.moveStage, hl, hr, hj]

/-- The horizontal-movement stage never touches `y`, the vertical velocity or
the grounded flag. -/
theorem Karel.moveStage_phys (k : Karel) (inp : FrameInput) (ws : List Wall) :
    (k.moveStage inp ws).y = k.y ∧ (k.moveStage inp ws).velocity_y = k.velocity_y ∧
      (k.moveStage inp ws).on_ground = k.on_ground := by
  unfold Karel.moveStage
  split_ifs <;>
    simp [Karel.move_left_y, Karel.move_left_velocity, Karel.move_left_ground,
      Karel.move_right_y, Karel.move_right_velocity, Karel.move_right_ground]

/-- For an airborne Karel the input-handling prefix only moves horizontally. -/
theorem Karel.handleInput_airborne (k : Karel) (inp : FrameInput) (ws : List Wall)
    (h : k.on_ground = false) :
    (k.handleInput inp ws).y = k.y ∧ (k.handleInput inp ws).velocity_y = k.velocity_y ∧
      (k.handleInput inp ws).on_ground = false := by
  obtain ⟨h1, h2, h3⟩ := Karel.moveStage_phys k inp ws
  unfold Karel.handleInput
  split_ifs with hj
  · rw [Karel.jump_airborne _ (h3.trans h)]
    exact ⟨h1, h2, h3.trans h⟩
  · exact ⟨h1, h2, h3.trans h⟩

/-- If the collision loop reports a landing, the new `y` sits Karel exactly on
top of one of the scanned obstacles. -/
theorem collideScan_grounded (x kb kt vy : ℚ) :
    ∀ (obs : List Platform) (ny : ℚ), collideScan x kb kt vy obs = some (ny, true) →
      ∃ o ∈ obs, ny = o.y - KAREL_SIZE := by
  intro obs
  induction obs with
  | nil => intro ny h; simp [collideScan] at h
  | cons o rest ih =>
    intro ny h
    simp only [collideScan] at h
    split_ifs at h with hov hland hbump
    · simp only [Option.some.injEq, Prod.mk.injEq] at h
      exact ⟨o, List.mem_cons_self o rest, h.1.symm⟩
    · simp only [Option.some.injEq, Prod.mk.injEq] at h
      exact absurd h.2 (by simp)
    · obtain ⟨o', ho', hy⟩ := ih ny h
      exact ⟨o', List.mem_cons_of_mem o ho', hy⟩
    · obtain ⟨o', ho', hy⟩ := ih ny h
      exact ⟨o', List.mem_cons_of_mem o ho', hy⟩

/-- With a downward (or zero) entry velocity the collision loop can only keep
or lower Karel: any response `y` is at most `karel_bottom - KAREL_SIZE`. -/
theorem collideScan_y_le (x kb kt vy : ℚ) (hv : 0 ≤ vy) :
    ∀ (obs : List Platform) (ny : ℚ) (g : Bool), collideScan x kb kt vy obs = some (ny, g) →
      ny ≤ kb - KAREL_SIZE := by
  intro obs
  induction obs with
  | nil => intro ny g h; simp [collideScan] at h
  | cons o rest ih =>
    intro ny g h
    simp only [collideScan] at h
    split_ifs at h with hov hland hbump
    · cases h; linarith [hland.2.1]
    · exact absurd hbump.1 (by linarith)
    · exact ih ny g h
    · exact ih ny g h

/-- The landing branch is the only way to set the grounded flag, and it also
zeroes the vertical velocity. -/
theorem check_platform_collision_velocity (k : Karel) (ps : List Platform) (ws : List Wall)
    (h : (k.check_platform_collision ps ws).on_ground = true) :
    (k.check_platform_collision ps ws).velocity_y = 0 := by
  unfold Karel.check_platform_collision at h ⊢
  generalize collideScan k.x (k.y + KAREL_SIZE) k.y k.velocity_y
      (ps ++ ws.map Wall.toPlatform) = r at h ⊢
  rcases r with - | ⟨ny, g⟩
  · simp at h
  · rfl

/-- A grounded collision result sits exactly on top of a scanned obstacle. -/
theorem check_platform_collision_grounded (k : Karel) (ps : List Platform) (ws : List Wall)
    (h : (k.check_platform_collision ps ws).on_ground = true) :
    ∃ o ∈ ps ++ ws.map Wall.toPlatform,
      (k.check_platform_collision ps ws).y = o.y - KAREL_SIZE := by
  unfold Karel.check_platform_collision at h ⊢
  generalize hscan : collideScan k.x (k.y + KAREL_SIZE) k.y k.velocity_y
      (ps ++ ws.map Wall.toPlatform) = r at h ⊢
  rcases r with - | ⟨ny, g⟩
  · simp at h
  · have hg : g = true := by simpa using h
    subst hg
    obtain ⟨o, ho, hy⟩ := collideScan_grounded _ _ _ _ _ ny hscan
    exact ⟨o, ho, by simpa using hy⟩

/-- Starting airborne with a downward (or zero) velocity, one physics step
raises `y` by at most the terminal velocity (horizontal input, gravity and the
collision response can never push Karel further down than the integrated
fall). -/
theorem physicsStep_y_le (k : Karel) (inp : FrameInput) (ps : List Platform) (ws : List Wall)
    (hg : k.on_ground = false) (hv : 0 ≤ k.velocity_y) :
    (k.physicsStep inp ps ws).y ≤ k.y + TERMINAL_VELOCITY := by
  obtain ⟨hy1, hv1, hg1⟩ := Karel.handleInput_airborne k inp ws hg
  have hgrav : ((k.handleInput inp ws).apply_gravity).y = k.y ∧
      0 ≤ ((k.handleInput inp ws).apply_gravity).velocity_y ∧
      ((k.handleInput inp ws).apply_gravity).velocity_y ≤ TERMINAL_VELOCITY := by
    unfold Karel.apply_gravity
    rw [hg1]
    simp only [Bool.false_eq_true, if_false]
    refine ⟨hy1, ?_, ?_⟩ <;> (split_ifs with hc) <;>
      simp only [TERMINAL_VELOCITY, GRAVITY] at * <;> linarith
  unfold Karel.physicsStep Karel.check_platform_collision
  dsimp only
  generalize hscan : collideScan ((k.handleInput inp ws).apply_gravity).x
      (((k.handleInput inp ws).apply_gravity).y + ((k.handleInput inp ws).apply_gravity).velocity_y
        + KAREL_SIZE)
      (((k.handleInput inp ws).apply_gravity).y + ((k.handleInput inp ws).apply_gravity).velocity_y)
      ((k.handleInput inp ws).apply_gravity).velocity_y (ps ++ ws.map Wall.toPlatform) = r
  rcases r with - | ⟨ny, g⟩
  · dsimp only
    linarith [hgrav.1, hgrav.2.2]
  · dsimp only
    have := collideScan_y_le _ _ _ _ hgrav.2.1 _ ny g hscan
    simp only [KAREL_SIZE] at this ⊢
    linarith [hgrav.1, hgrav.2.2]

/-- A freshly respawned Karel (at the start position, zero velocity, airborne)
cannot trip the fall check on the very next tick, whatever the input and the
level. -/
theorem update_snd_false_of_respawned (k : Karel) (inp : FrameInput) (ps : List Platform)
    (ws : List Wall) (h1 : k.y = KAREL_START_Y) (h2 : k.velocity_y = 0)
    (h3 : k.on_ground = false) :
    (k.update inp ps ws).2 = false := by
  unfold Karel.update
  have hle := physicsStep_y_le k inp ps ws h3 (by rw [h2])
  rw [h1] at hle
  have : ¬ (k.physicsStep inp ps ws).y > WINDOW_HEIGHT + 100 := by
    simp only [KAREL_START_Y, TERMINAL_VELOCITY, WINDOW_HEIGHT] at hle ⊢
    linarith
  rw [if_neg this]

/-- `physicsStep` ends in `check_platform_collision`, so a grounded result has
zero vertical velocity. -/
theorem physicsStep_grounded_velocity (k : Karel) (inp : FrameInput) (ps : List Platform)
    (ws : List Wall) (h : (k.physicsStep inp ps ws).on_ground = true) :
    (k.physicsStep inp ps ws).velocity_y = 0 :=
  check_platform_collision_velocity _ ps ws h

/-- A grounded `physicsStep` result sits exactly on top of some obstacle. -/
theorem physicsStep_grounded_support (k : Karel) (inp : FrameInput) (ps : List Platform)
    (ws : List Wall) (h : (k.physicsStep inp ps ws).on_ground = true) :
    ∃ o ∈ ps ++ ws.map Wall.toPlatform, (k.physicsStep inp ps ws).y = o.y - KAREL_SIZE :=
  check_platform_collision_grounded _ ps ws h

/-! ### Claim theorems: Karel physics -/

/-- C9.  After every `Karel.update`, `grounded = true` implies
`velocityY = 0`; construction yields zero velocity with the flag cleared; and
`jump` always leaves the grounded flag cleared (it launches only from the
ground, clearing the flag as it does). -/
theorem grounded_implies_zero_velocity (k : Karel) (inp : FrameInput) (ps : List Platform)
    (ws : List Wall) (x0 y0 : ℚ) :
    ((k.update inp ps ws).1.on_ground = true → (k.update inp ps ws).1.velocity_y = 0) ∧
    (Karel.make x0 y0).velocity_y = 0 ∧ (Karel.make x0 y0).on_ground = false ∧
    (k.jump).on_ground = false := by
  refine ⟨?_, rfl, rfl, Karel.jump_ground k⟩
  intro h
  unfold Karel.update at h ⊢
  split_ifs at h ⊢ with hy
  all_goals
    first
      | rfl
      | exact physicsStep_grounded_velocity k inp ps ws (by simpa using h)

/-- C9 witness: a concrete landing tick ends grounded with zero velocity. -/
theorem grounded_implies_zero_velocity_witness :
    (Karel.update ⟨50, 398, 11, false, 50, 380⟩ noInput [⟨0, 430, 400, 50⟩] []).1.on_ground
        = true ∧
    (Karel.update ⟨50, 398, 11, false, 50, 380⟩ noInput [⟨0, 430, 400, 50⟩] []).1.velocity_y
        = 0 := by
  have hg : (Karel.update ⟨50, 398, 11, false, 50, 380⟩ noInput
      [⟨0, 430, 400, 50⟩] []).1.on_ground = true := by
    norm_num [Karel.update, Karel.physicsStep, Karel.handleInput, Karel.moveStage, Karel.jump,
      Karel.apply_gravity, Karel.check_platform_collision, collideScan, noInput,
      KAREL_SIZE, GRAVITY, TERMINAL_VELOCITY, WINDOW_HEIGHT]
  exact ⟨hg, (grounded_implies_zero_velocity ⟨50, 398, 11, false, 50, 380⟩ noInput
    [⟨0, 430, 400, 50⟩] [] 0 0).1 hg⟩

/-- C3.  After any tick that ends with `grounded = true`, Karel's bottom edge
equals exactly the top edge of some obstacle of the level (platforms first,
then walls, as `check_platform_collision` scans them). -/
theorem grounded_bottom_on_obstacle_top (k : Karel) (inp : FrameInput) (ps : List Platform)
    (ws : List Wall) (h : (k.update inp ps ws).1.on_ground = true) :
    ∃ o ∈ ps ++ ws.map Wall.toPlatform, (k.update inp ps ws).1.y + KAREL_SIZE = o.y := by
  unfold Karel.update at h ⊢
  split_ifs at h ⊢ with hy
  all_goals
    first
      | (simp at h; done)
      | (obtain ⟨o, ho, hoy⟩ := physicsStep_grounded_support k inp ps ws (by simpa using h)
         refine ⟨o, ho, ?_⟩
         show (k.physicsStep inp ps ws).y + KAREL_SIZE = o.y
         rw [hoy]; ring)

/-- C3 witness: the concrete landing tick of the previous witness ends on top
of the scanned ground platform. -/
theorem grounded_bottom_on_obstacle_top_witness :
    (Karel.update ⟨50, 398, 11, false, 50, 380⟩ noInput [⟨0, 430, 400, 50⟩] []).1.on_ground
        = true ∧
    ∃ o ∈ ([⟨0, 430, 400, 50⟩] : List Platform) ++ ([] : List Wall).map Wall.toPlatform,
      (Karel.update ⟨50, 398, 11, false, 50, 380⟩ noInput
        [⟨0, 430, 400, 50⟩] []).1.y + KAREL_SIZE = o.y := by
  have hg : (Karel.update ⟨50, 398, 11, false, 50, 380⟩ noInput
      [⟨0, 430, 400, 50⟩] []).1.on_ground = true := by
    norm_num [Karel.update, Karel.physicsStep, Karel.handleInput, Karel.moveStage, Karel.jump,
      Karel.apply_gravity, Karel.check_platform_collision, collideScan, noInput,
      KAREL_SIZE, GRAVITY, TERMINAL_VELOCITY, WINDOW_HEIGHT]
  exact ⟨hg, grounded_bottom_on_obstacle_top ⟨50, 398, 11, false, 50, 380⟩ noInput
    [⟨0, 430, 400, 50⟩] [] hg⟩

/-- C6.  The fall-through recovery: the "fell" signal is returned exactly when
the post-physics `y` exceeds `WINDOW_HEIGHT + 100`; in that case the very same
tick resets Karel to the level start with zero velocity and cleared grounded
flag, and the immediately following tick can never signal "fell" again,
whatever its input — falling is a designed transition, not a failure. -/
theorem fall_through_respawn (k : Karel) (inp : FrameInput) (ps : List Platform)
    (ws : List Wall) :
    ((k.update inp ps ws).2 = true ↔ (k.physicsStep inp ps ws).y > WINDOW_HEIGHT + 100) ∧
    ((k.update inp ps ws).2 = true →
      (k.update inp ps ws).1.x = KAREL_START_X ∧ (k.update inp ps ws).1.y = KAREL_START_Y ∧
      (k.update inp ps ws).1.velocity_y = 0 ∧ (k.update inp ps ws).1.on_ground = false ∧
      ∀ inp2 : FrameInput, ((k.update inp ps ws).1.update inp2 ps ws).2 = false) := by
  unfold Karel.update
  split_ifs with hy
  · exact ⟨⟨fun _ => hy, fun _ => rfl⟩,
      fun _ => ⟨rfl, rfl, rfl, rfl,
        fun inp2 => update_snd_false_of_respawned _ inp2 ps ws rfl rfl rfl⟩⟩
  · exact ⟨⟨fun h => absurd h (by simp), fun h => absurd h hy⟩,
      fun h => absurd h (by simp)⟩

/-- C6 witness: a concrete tick crossing the threshold fires the signal and
respawns Karel at the start position. -/
theorem fall_through_respawn_witness :
    (Karel.update ⟨100, 600, 12, false, 100, 600⟩ noInput [] []).2 = true ∧
    (Karel.update ⟨100, 600, 12, false, 100, 600⟩ noInput [] []).1.x = KAREL_START_X ∧
    (Karel.update ⟨100, 600, 12, false, 100, 600⟩ noInput [] []).1.y = KAREL_START_Y ∧
    (Karel.update ⟨100, 600, 12, false, 100, 600⟩ noInput [] []).1.velocity_y = 0 ∧
    (Karel.update ⟨100, 600, 12, false, 100, 600⟩ noInput [] []).1.on_ground = false ∧
    ∀ inp2 : FrameInput,
      ((Karel.update ⟨100, 600, 12, false, 100, 600⟩ noInput [] []).1.update inp2 [] []).2
        = false := by
  have hf : (Karel.update ⟨100, 600, 12, false, 100, 600⟩ noInput [] []).2 = true := by
    norm_num [Karel.update, Karel.physicsStep, Karel.handleInput, Karel.moveStage, Karel.jump,
      Karel.apply_gravity, Karel.check_platform_collision, collideScan, noInput,
      KAREL_SIZE, GRAVITY, TERMINAL_VELOCITY, WINDOW_HEIGHT]
  exact ⟨hf, (fall_through_respawn ⟨100, 600, 12, false, 100, 600⟩ noInput [] []).2 hf⟩

/-- C1 (amended).  No tunneling at terminal velocity: for a platform of
thickness 20 whose top edge lies at or above the respawn threshold
(`p.y ≤ WINDOW_HEIGHT + 100 + KAREL_SIZE`, i.e. landing does not immediately
trip the fall check), a tick with no keys held, pre-tick `velocityY = 12`
(terminal), horizontal overlap, and pre-tick gap `0 ≤ d ≤ 12` between Karel's
bottom and the platform top ends with the bottom snapped exactly onto the
platform top, `velocityY = 0` and `grounded = true`. -/
theorem no_tunneling_landing (p : Platform) (k : Karel) (inp : FrameInput)
    (hl : inp.left = false) (hr : inp.right = false) (hj : inp.jump = false)
    (hh : p.height = 20) (hv : k.velocity_y = TERMINAL_VELOCITY) (hg : k.on_ground = false)
    (hov1 : k.x + KAREL_SIZE > p.x) (hov2 : k.x < p.x + p.width)
    (hd0 : 0 ≤ p.y - (k.y + KAREL_SIZE)) (hd12 : p.y - (k.y + KAREL_SIZE) ≤ TERMINAL_VELOCITY)
    (htop : p.y ≤ WINDOW_HEIGHT + 100 + KAREL_SIZE) :
    (k.update inp [p] []).1.y + KAREL_SIZE = p.y ∧
    (k.update inp [p] []).1.velocity_y = 0 ∧
    (k.update inp [p] []).1.on_ground = true ∧ (k.update inp [p] []).2 = false := by
  have hstep : k.physicsStep inp [p] [] =
      { k with y := p.y - KAREL_SIZE, velocity_y := 0, on_ground := true } := by
    unfold Karel.physicsStep
    rw [Karel.handleInput_noKeys k inp [] hl hr hj]
    have hgrav : k.apply_gravity = { k with velocity_y := TERMINAL_VELOCITY } := by
      unfold Karel.apply_gravity
      rw [hg, hv]
      norm_num [GRAVITY, TERMINAL_VELOCITY]
    rw [hgrav]
    unfold Karel.check_platform_collision
    dsimp only
    have hscan : collideScan k.x (k.y + TERMINAL_VELOCITY + KAREL_SIZE)
        (k.y + TERMINAL_VELOCITY) TERMINAL_VELOCITY
        ([p] ++ ([] : List Wall).map Wall.toPlatform) = some (p.y - KAREL_SIZE, true) := by
      simp only [List.map_nil, List.append_nil]
      unfold collideScan
      rw [if_pos ⟨hov1, hov2⟩, if_pos]
      refine ⟨by norm_num [TERMINAL_VELOCITY], by linarith, ?_⟩
      rw [hh]
      linarith
    rw [hscan]
  have hcond : ¬ ((k.physicsStep inp [p] []).y > WINDOW_HEIGHT + 100) := by
    rw [hstep]
    dsimp only
    linarith
  unfold Karel.update
  rw [if_neg hcond, hstep]
  refine ⟨by dsimp only; ring, rfl, rfl, rfl⟩

/-- C1 counterexample to the claim as stated: for a platform of thickness 20
whose top is at `y = 700` (below the respawn threshold), every premise of the
claim holds (terminal fall, overlap, pre-tick gap `d = 6 ≤ 12`), yet the tick
ends with `grounded = false` and the bottom edge away from the platform top,
because the landing immediately trips the fall-respawn. -/
theorem no_tunneling_landing_counterexample :
    (Platform.height ⟨100, 700, 100, 20⟩ = 20) ∧
    (Karel.velocity_y ⟨100, 662, 12, false, 100, 662⟩ = TERMINAL_VELOCITY) ∧
    (Karel.on_ground ⟨100, 662, 12, false, 100, 662⟩ = false) ∧
    ((100 : ℚ) + KAREL_SIZE > 100) ∧ ((100 : ℚ) < 100 + 100) ∧
    ((0 : ℚ) ≤ 700 - (662 + KAREL_SIZE)) ∧
    ((700 : ℚ) - (662 + KAREL_SIZE) ≤ TERMINAL_VELOCITY) ∧
    (Karel.update ⟨100, 662, 12, false, 100, 662⟩ noInput
        [⟨100, 700, 100, 20⟩] []).1.on_ground = false ∧
    (Karel.update ⟨100, 662, 12, false, 100, 662⟩ noInput
        [⟨100, 700, 100, 20⟩] []).1.y + KAREL_SIZE ≠ (700 : ℚ) := by
  refine ⟨rfl, rfl, rfl, by norm_num [KAREL_SIZE], by norm_num,
    by norm_num [KAREL_SIZE], by norm_num [KAREL_SIZE, TERMINAL_VELOCITY], ?_, ?_⟩ <;>
    norm_num [Karel.update, Karel.physicsStep, Karel.handleInput, Karel.moveStage, Karel.jump,
      Karel.apply_gravity, Karel.check_platform_collision, collideScan, noInput,
      KAREL_SIZE, GRAVITY, TERMINAL_VELOCITY, WINDOW_HEIGHT, KAREL_START_X, KAREL_START_Y]

/-- C1 witness: a concrete terminal-velocity landing on an in-world platform
of thickness 20 (gap `d = 6`) snaps exactly onto the top. -/
theorem no_tunneling_landing_witness :
    (Karel.update ⟨210, 362, 12, false, 210, 380⟩ noInput [⟨200, 400, 100, 20⟩] []).1.y
        + KAREL_SIZE = (400 : ℚ) ∧
    (Karel.update ⟨210, 362, 12, false, 210, 380⟩ noInput
        [⟨200, 400, 100, 20⟩] []).1.velocity_y = 0 ∧
    (Karel.update ⟨210, 362, 12, false, 210, 380⟩ noInput
        [⟨200, 400, 100, 20⟩] []).1.on_ground = true ∧
    (Karel.update ⟨210, 362, 12, false, 210, 380⟩ noInput [⟨200, 400, 100, 20⟩] []).2
        = false :=
  no_tunneling_landing ⟨200, 400, 100, 20⟩ ⟨210, 362, 12, false, 210, 380⟩ noInput
    rfl rfl rfl rfl rfl rfl
    (by norm_num [KAREL_SIZE]) (by norm_num)
    (by norm_num [KAREL_SIZE]) (by norm_num [KAREL_SIZE, TERMINAL_VELOCITY])
    (by norm_num [KAREL_SIZE, WINDOW_HEIGHT])

/-- C5 (code bug).  `move_left` tests walls against the collision rect whose
`y` was frozen at construction time (the `rect.y` update in `Karel.update` is
unreachable, sitting after a `return`): at a state reached by construction at
`y = 380` and later physics moving Karel to `y = 100`, moving left is reverted
by a wall at `(95, 380)` even though the wall does not intersect Karel's
rectangle at the tentative x with Karel's current y. -/
theorem move_left_stale_rect_y :
    (Karel.move_left ⟨100, 100, 0, false, 100, 380⟩ [⟨95, 380⟩]).x = 100 ∧
    Karel.hitsWall (pyInt ((100 : ℚ) - KAREL_SPEED)) (pyInt ((380 : ℚ))) ⟨95, 380⟩ = true ∧
    Karel.hitsWall (pyInt ((100 : ℚ) - KAREL_SPEED)) (pyInt ((100 : ℚ))) ⟨95, 380⟩ = false := by
  refine ⟨?_, ?_, ?_⟩ <;>
    norm_num [Karel.move_left, Karel.hitsWall, intRectsCollide, pyInt, KAREL_SPEED]

/-! ### Camera -/

/-- One camera tick from a state satisfying `CamOK` never decreases the
stored position, and preserves `CamOK`, whatever the karel x fed in. -/
theorem Camera.update_mono (c : Camera) (kx : ℚ) (h : CamOK c) :
    c.x ≤ (c.update kx).x ∧ CamOK (c.update kx) := by
  obtain ⟨h1, h2, h3, h4⟩ := h
  unfold Camera.update
  dsimp only
  set t := if kx - WINDOW_WIDTH / 2 > c.target_x then kx - WINDOW_WIDTH / 2 else c.target_x
    with ht
  have hct : c.target_x ≤ t := by
    rw [ht]; split_ifs with hgt
    · linarith
    · exact le_refl _
  have h0t : 0 ≤ t := le_trans h4 hct
  have hxt : c.x ≤ t := le_trans h1 hct
  have hW : (0 : ℚ) ≤ WORLD_WIDTH - WINDOW_WIDTH := by norm_num [WORLD_WIDTH, WINDOW_WIDTH]
  have hraw1 : c.x ≤ c.x + (t - c.x) * FOLLOW_SPEED := by
    have : 0 ≤ (t - c.x) * FOLLOW_SPEED :=
      mul_nonneg (by linarith) (by norm_num [FOLLOW_SPEED])
    linarith
  have hraw2 : c.x + (t - c.x) * FOLLOW_SPEED ≤ t := by
    simp only [FOLLOW_SPEED]
    linarith
  refine ⟨le_max_of_le_right (le_min hraw1 h3), ?_, le_max_left _ _,
    max_le hW (min_le_right _ _), h0t⟩
  exact max_le h0t (le_trans (min_le_left _ _) hraw2)

/-- The camera field of a game tick is exactly one `Camera.update`. -/
theorem GameState.update_camera (g : GameState) (inp : FrameInput) :
    (g.update inp).camera = g.camera.update (karelAfter g inp).1.x := rfl

theorem trace_camOK (f : ℕ → FrameInput) : ∀ n, CamOK (gameTrace f n).camera
  | 0 => by
    show CamOK Camera.make
    refine ⟨le_refl _, le_refl _, ?_, le_refl _⟩
    norm_num [Camera.make, WORLD_WIDTH, WINDOW_WIDTH]
  | n + 1 => by
    show CamOK ((gameTrace f n).update (f n)).camera
    rw [GameState.update_camera]
    exact (Camera.update_mono _ _ (trace_camOK f n)).2

/-- C2.  Camera monotonicity: along any session trace (any input stream), the
camera's stored x position after tick `t+1` is at least its position after
tick `t` — the camera never scrolls backward, even when Karel walks left. -/
theorem camera_never_scrolls_back (f : ℕ → FrameInput) (t : ℕ) :
    (gameTrace f t).camera.x ≤ (gameTrace f (t + 1)).camera.x := by
  show (gameTrace f t).camera.x ≤ ((gameTrace f t).update (f t)).camera.x
  rw [GameState.update_camera]
  exact (Camera.update_mono _ _ (trace_camOK f t)).1

/-! ### Restart -/

/-- C7.  `restart_game` zeroes the score, clears the won flag and win timer,
empties the particle list, clears every beeper's collected flag (leaving their
positions as they are), clears the goal's reached flag, rebuilds Karel at the
spawn point with fresh physics state and a fresh camera — and leaves the
platform and wall lists (hence every rectangle in them) unchanged. -/
theorem restart_resets (g : GameState) :
    g.restart_game.score = 0 ∧ g.restart_game.game_won = false ∧
    g.restart_game.win_timer = 0 ∧ g.restart_game.particles = [] ∧
    g.restart_game.beepers = g.beepers.map (fun b => { b with collected := false }) ∧
    (∀ b ∈ g.restart_game.beepers, b.collected = false) ∧
    g.restart_game.goal_reached = false ∧
    g.restart_game.karel = Karel.make KAREL_START_X KAREL_START_Y ∧
    g.restart_game.camera = Camera.make ∧
    g.restart_game.platforms = g.platforms ∧ g.restart_game.walls = g.walls := by
  refine ⟨rfl, rfl, rfl, rfl, rfl, ?_, rfl, rfl, rfl, rfl, rfl⟩
  intro b hb
  rw [show g.restart_game.beepers = g.beepers.map (fun b => { b with collected := false })
    from rfl, List.mem_map] at hb
  obtain ⟨a, -, rfl⟩ := hb
  rfl

/-- C7 witness: the reset equations at the initial session state. -/
theorem restart_resets_witness :
    gameInit.restart_game.score = 0 ∧ gameInit.restart_game.game_won = false ∧
    (∀ b ∈ gameInit.restart_game.beepers, b.collected = false) ∧
    gameInit.restart_game.platforms = gameInit.platforms :=
  ⟨(restart_resets gameInit).1, (restart_resets gameInit).2.1,
    (restart_resets gameInit).2.2.2.2.2.1, (restart_resets gameInit).2.2.2.2.2.2.2.2.2.1⟩

/-! ### Beeper collection -/

/-- C8.  Collection is idempotent: an already-collected beeper's
`check_collection` returns `False` and changes nothing, and inside the
per-tick sweep such a beeper contributes no score, emits no pickup event, and
passes through unchanged (so it stays collected for every later tick). -/
theorem collection_idempotent (k : Karel) (b : Beeper) (h : b.collected = true) :
    b.check_collection k = (b, false) ∧
    ∀ pre post : List Beeper,
      beeperSweep k (pre ++ b :: post) =
        ((beeperSweep k pre).1 ++ b :: (beeperSweep k post).1,
         (beeperSweep k pre).2.1 + (beeperSweep k post).2.1,
         (beeperSweep k pre).2.2 ++ (beeperSweep k post).2.2) := by
  have hcc : b.check_collection k = (b, false) := by
    simp [Beeper.check_collection, h]
  refine ⟨hcc, ?_⟩
  intro pre post
  induction pre with
  | nil => simp [beeperSweep, hcc]
  | cons a pre ih => simp [beeperSweep, ih, Nat.add_assoc, List.append_assoc]

/-- C8 witness: a collected beeper right under Karel (well inside the pickup
radius) is still skipped. -/
theorem collection_idempotent_witness :
    Beeper.check_collection ⟨150, 410, 8, true, 10⟩ (Karel.make 150 400)
      = (⟨150, 410, 8, true, 10⟩, false) :=
  (collection_idempotent (Karel.make 150 400) ⟨150, 410, 8, true, 10⟩ rfl).1

/-! ### Victory -/

theorem check_victory_snd (r : Bool) (k : Karel) :
    (check_victory r k).2 = (!r && goalOverlap k) := by
  cases r <;> cases hgo : goalOverlap k <;> simp [check_victory, hgo]

theorem victoryStage_won (w r : Bool) (t : ℕ) (k : Karel) :
    (victoryStage w r t k).1 = (w || (!r && goalOverlap k)) := by
  cases w <;> simp [victoryStage, check_victory_snd]

theorem victoryStage_reached (w r : Bool) (t : ℕ) (k : Karel) :
    (victoryStage w r t k).2.1 = (r || (!w && goalOverlap k)) := by
  cases w <;> cases r <;> cases hgo : goalOverlap k <;> simp [victoryStage, check_victory, hgo]

theorem GameState.update_game_won_def (g : GameState) (inp : FrameInput) :
    (g.update inp).game_won
      = (victoryStage g.game_won g.goal_reached g.win_timer (karelAfter g inp).1).1 := rfl

theorem GameState.update_goal_reached_def (g : GameState) (inp : FrameInput) :
    (g.update inp).goal_reached
      = (victoryStage g.game_won g.goal_reached g.win_timer (karelAfter g inp).1).2.1 := rfl

/-- Along any trace the session's `game_won` flag and the goal flag's
`reached` flag agree (both are set by the same firing check). -/
theorem trace_won_eq_reached (f : ℕ → FrameInput) :
    ∀ n, (gameTrace f n).game_won = (gameTrace f n).goal_reached
  | 0 => rfl
  | n + 1 => by
    have ih := trace_won_eq_reached f n
    show ((gameTrace f n).update (f n)).game_won = ((gameTrace f n).update (f n)).goal_reached
    rw [GameState.update_game_won_def, GameState.update_goal_reached_def, victoryStage_won,
      victoryStage_reached, ih]

/-- The session is won after `n` ticks exactly when some earlier tick saw the
karel rect overlap the goal rect. -/
theorem trace_won_iff (f : ℕ → FrameInput) :
    ∀ n, ((gameTrace f n).game_won = true ↔ ∃ m, m < n ∧ overlapAt f m = true)
  | 0 => by
    constructor
    · intro h; exact absurd h Bool.false_ne_true
    · rintro ⟨m, hm, -⟩; exact absurd hm (Nat.not_lt_zero m)
  | n + 1 => by
    have ih := trace_won_iff f n
    have hwr := trace_won_eq_reached f n
    show (((gameTrace f n).update (f n)).game_won = true ↔ _)
    rw [GameState.update_game_won_def, victoryStage_won, ← hwr]
    have hcollapse :
        ((gameTrace f n).game_won
            || (!(gameTrace f n).game_won && goalOverlap (karelAfter (gameTrace f n) (f n)).1))
          = ((gameTrace f n).game_won || overlapAt f n) := by
      cases (gameTrace f n).game_won <;> simp [overlapAt]
    rw [hcollapse, Bool.or_eq_true]
    constructor
    · rintro (h | h)
      · obtain ⟨m, hm, hov⟩ := ih.1 h
        exact ⟨m, Nat.lt_succ_of_lt hm, hov⟩
      · exact ⟨n, Nat.lt_succ_self n, h⟩
    · rintro ⟨m, hm, hov⟩
      rcases Nat.lt_succ_iff_lt_or_eq.1 hm with hlt | rfl
      · exact Or.inl (ih.2 ⟨m, hlt, hov⟩)
      · exact Or.inr hov

theorem trace_won_mono (f : ℕ → FrameInput) {a b : ℕ} (hab : a ≤ b)
    (h : (gameTrace f a).game_won = true) : (gameTrace f b).game_won = true := by
  obtain ⟨m, hm, hov⟩ := (trace_won_iff f a).1 h
  exact (trace_won_iff f b).2 ⟨m, lt_of_lt_of_le hm hab, hov⟩

/-- The victory event of tick `n` fires exactly when the session is not yet
won and this tick's karel rect overlaps the goal rect. -/
theorem victoryFiredAt_eq (f : ℕ → FrameInput) (n : ℕ) :
    victoryFiredAt f n = (!(gameTrace f n).game_won && overlapAt f n) := by
  unfold victoryFiredAt
  dsimp only
  rw [check_victory_snd, ← trace_won_eq_reached f n]
  cases (gameTrace f n).game_won <;> simp [overlapAt, karelAfter]

/-- C4.  The victory event fires exactly once: it fires at tick `m` iff the
karel rect overlaps the goal rect at tick `m` and at no earlier tick; once it
has fired it never fires again (even if the overlap persists); the won flag
after tick `m` is set exactly when some tick up to `m` overlapped; and the
goal's `reached` flag always agrees with the won flag. -/
theorem goal_fires_once (f : ℕ → FrameInput) (m n : ℕ) (hmn : m < n) :
    (victoryFiredAt f m = true ↔
      (overlapAt f m = true ∧ ∀ j, j < m → overlapAt f j = false)) ∧
    (victoryFiredAt f m = true → victoryFiredAt f n = false) ∧
    ((gameTrace f (m + 1)).game_won = true ↔ ∃ j, j ≤ m ∧ overlapAt f j = true) ∧
    (gameTrace f (m + 1)).goal_reached = (gameTrace f (m + 1)).game_won := by
  refine ⟨?_, ?_, ?_, (trace_won_eq_reached f (m + 1)).symm⟩
  · rw [victoryFiredAt_eq]
    constructor
    · intro h
      rw [Bool.and_eq_true, Bool.not_eq_true'] at h
      refine ⟨h.2, ?_⟩
      intro j hj
      by_contra hov
      have hw : (gameTrace f m).game_won = true :=
        (trace_won_iff f m).2 ⟨j, hj, by simpa using hov⟩
      rw [hw] at h
      exact absurd h.1 (by simp)
    · rintro ⟨hov, hnone⟩
      have hw : (gameTrace f m).game_won = false := by
        rcases hwc : (gameTrace f m).game_won with - | -
        · rfl
        · obtain ⟨j, hj, hovj⟩ := (trace_won_iff f m).1 hwc
          rw [hnone j hj] at hovj
          exact absurd hovj (by simp)
      rw [hw, hov]
      rfl
  · intro h
    rw [victoryFiredAt_eq] at h
    rw [Bool.and_eq_true, Bool.not_eq_true'] at h
    have hwon : (gameTrace f n).game_won = true := (trace_won_iff f n).2 ⟨m, hmn, h.2⟩
    rw [victoryFiredAt_eq, hwon]
    simp
  · rw [trace_won_iff f (m + 1)]
    constructor
    · rintro ⟨j, hj, hov⟩; exact ⟨j, Nat.lt_succ_iff.1 hj, hov⟩
    · rintro ⟨j, hj, hov⟩; exact ⟨j, Nat.lt_succ_iff.2 hj, hov⟩

/-- C4 witness: instantiated at the constant no-input stream and ticks 0 < 1. -/
theorem goal_fires_once_witness :
    (gameTrace (fun _ => noInput) 1).goal_reached = (gameTrace (fun _ => noInput) 1).game_won :=
  (goal_fires_once (fun _ => noInput) 0 1 (by norm_num)).2.2.2

/-! ### Score bookkeeping -/

theorem check_collection_collected (k : Karel) (b : Beeper) :
    (b.check_collection k).1.collected = (b.collected || (b.check_collection k).2) ∧
    (b.check_collection k).1.points = b.points ∧
    ((b.check_collection k).2 = true → b.collected = false) := by
  unfold Beeper.check_collection
  cases hc : b.collected
  · simp only [hc, Bool.false_eq_true, if_false]
    split_ifs with h2 <;> simp [hc]
  · simp only [hc, if_true]
    simp [hc]

theorem GameState.update_score_def (g : GameState) (inp : FrameInput) :
    (g.update inp).score = g.score + (beeperSweep (karelAfter g inp).1 g.beepers).2.1 := rfl

theorem GameState.update_beepers_def (g : GameState) (inp : FrameInput) :
    (g.update inp).beepers = (beeperSweep (karelAfter g inp).1 g.beepers).1 := rfl

/-- The per-tick sweep: all point values stay 10, and the score it hands out
is exactly 10 per newly collected beeper. -/
theorem beeperSweep_spec (k : Karel) :
    ∀ bs : List Beeper, (∀ b ∈ bs, b.points = 10) →
      (∀ b ∈ (beeperSweep k bs).1, b.points = 10) ∧
      (beeperSweep k bs).2.1 + 10 * bs.countP (fun b => b.collected)
        = 10 * (beeperSweep k bs).1.countP (fun b => b.collected) := by
  intro bs
  induction bs with
  | nil => intro _; simp [beeperSweep]
  | cons b rest ih =>
    intro hp
    obtain ⟨hrest, hcnt⟩ := ih (fun x hx => hp x (List.mem_cons_of_mem b hx))
    have hb := hp b (List.mem_cons_self b rest)
    obtain ⟨hc1, hc2, hc3⟩ := check_collection_collected k b
    constructor
    · intro x hx
      simp only [beeperSweep, List.mem_cons] at hx
      rcases hx with rfl | hx
      · rw [hc2]; exact hb
      · exact hrest x hx
    · simp only [beeperSweep, List.countP_cons]
      rw [hc1, hb]
      cases hcol : b.collected <;> cases hgot : (b.check_collection k).2
      · simp only [Bool.or_self, if_false, Bool.false_eq_true]
        omega
      · simp only [Bool.false_or, if_true, if_false, Bool.false_eq_true]
        omega
      · simp only [Bool.true_or, if_true, if_false, Bool.false_eq_true]
        omega
      · exact absurd (hc3 hgot) (by rw [hcol]; simp)

/-- The beeper placement pass moves beepers but never touches their collected
flag or point value. -/
theorem resolveBeeper_preserves (ps : List Platform) (ws : List Wall) (b : Beeper) :
    (resolveBeeper ps ws b).collected = b.collected ∧
    (resolveBeeper ps ws b).points = b.points := by
  unfold resolveBeeper
  split_ifs with hcf
  · split
    · exact ⟨rfl, rfl⟩
    · split
      · exact ⟨rfl, rfl⟩
      · exact ⟨rfl, rfl⟩
  · exact ⟨rfl, rfl⟩

theorem countP_collected_map_resolve (ps : List Platform) (ws : List Wall) :
    ∀ l : List Beeper,
      (l.map (resolveBeeper ps ws)).countP (fun b => b.collected)
        = l.countP (fun b => b.collected) := by
  intro l
  induction l with
  | nil => rfl
  | cons a l ih =>
    simp only [List.map_cons, List.countP_cons, ih, (resolveBeeper_preserves ps ws a).1]

theorem scoreInv_gameInit : ScoreInv gameInit := by
  constructor
  · show (0 : ℕ) = 10 * (levelBeepers.map (resolveBeeper levelPlatforms levelWalls)).countP
      (fun b => b.collected)
    rw [countP_collected_map_resolve]
    rfl
  · intro b hb
    rw [show gameInit.beepers = levelBeepers.map (resolveBeeper levelPlatforms levelWalls)
      from rfl, List.mem_map] at hb
    obtain ⟨a, ha, rfl⟩ := hb
    rw [(resolveBeeper_preserves levelPlatforms levelWalls a).2]
    simp only [levelBeepers, List.mem_cons, List.not_mem_nil, or_false] at ha
    rcases ha with rfl | rfl | rfl | rfl | rfl | rfl | rfl | rfl | rfl | rfl <;> rfl

/-- C10.  The score invariant `score = 10 × number of collected beepers`
(with every beeper worth 10 points) holds at session start, is preserved by
every game tick, and is preserved by `restart_game`. -/
theorem score_matches_collected_count (g : GameState) (inp : FrameInput) (h : ScoreInv g) :
    ScoreInv (g.update inp) ∧ ScoreInv g.restart_game ∧ ScoreInv gameInit := by
  obtain ⟨hs, hp⟩ := h
  refine ⟨⟨?_, ?_⟩, ⟨?_, ?_⟩, scoreInv_gameInit⟩
  · obtain ⟨-, hcnt⟩ := beeperSweep_spec (karelAfter g inp).1 g.beepers hp
    rw [GameState.update_score_def, GameState.update_beepers_def, hs]
    omega
  · obtain ⟨hp', -⟩ := beeperSweep_spec (karelAfter g inp).1 g.beepers hp
    rw [GameState.update_beepers_def]
    exact hp'
  · have hz : ∀ l : List Beeper,
        (l.map (fun b : Beeper => { b with collected := false })).countP
          (fun b => b.collected) = 0 := by
      intro l; induction l with
      | nil => rfl
      | cons a l ih => simp [List.countP_cons, ih]
    rw [show g.restart_game.score = 0 from rfl,
      show g.restart_game.beepers = g.beepers.map (fun b => { b with collected := false })
        from rfl, hz]
  · intro b hb
    rw [show g.restart_game.beepers = g.beepers.map (fun b => { b with collected := false })
      from rfl, List.mem_map] at hb
    obtain ⟨a, ha, rfl⟩ := hb
    exact hp a ha

/-- A bare session state with no beepers, used to instantiate the score
invariant theorem. -/
def emptySession : GameState :=
  { karel := Karel.make 0 0, camera := Camera.make, score := 0, game_won := false,
    win_timer := 0, beepers := [], goal_reached := false, particles := [],
    screen_shake := 0, camera_shake_x := 0, camera_shake_y := 0, platforms := [], walls := [] }

/-- C10 witness. -/
theorem score_matches_collected_count_witness :
    ScoreInv (emptySession.update noInput) ∧ ScoreInv emptySession.restart_game ∧
    ScoreInv gameInit :=
  score_matches_collected_count emptySession noInput
    ⟨rfl, fun b hb => absurd hb (List.not_mem_nil b)⟩

end KarelSpec
